import Mathlib

/-!
Verification development for a small Flask navigation service (src/app.py).

The service loads a GeoJSON dataset, looks up two features by id, and builds
a three-point route with a haversine distance estimate.  The embedding below
models Python values reachable from `json.load` as an inductive `Json` type
(numbers idealized as rationals), Python runtime faults as a `PyErr` value
threaded through `Except`, and the transcendental float functions used by the
distance formula as an abstract `MathOps` record, since no theorem below
depends on their values.
-/

/-- A Python value produced by `json.load`: `None`, booleans, numbers
(idealized as rationals), strings, lists and string-keyed dicts.
`Json.null` doubles as the Python object `None`. -/
inductive Json where
  | null : Json
  | bool : Bool → Json
  | num : ℚ → Json
  | str : String → Json
  | arr : List Json → Json
  | obj : List (String × Json) → Json

/-- A Python runtime fault, carrying the text that `str(e)` would show. -/
inductive PyErr where
  | typeError : String → PyErr
  | keyError : String → PyErr
  | attributeError : String → PyErr
  | indexError : String → PyErr

/-- The message text of a fault, as interpolated by the 500 handler. -/
def PyErr.message : PyErr → String
  | .typeError m => m
  | .keyError m => m
  | .attributeError m => m
  | .indexError m => m

/-- The name Python reports for the runtime type of a value. -/
def Json.pyTypeName : Json → String
  | .null => "NoneType"
  | .bool _ => "bool"
  | .num _ => "float"
  | .str _ => "str"
  | .arr _ => "list"
  | .obj _ => "dict"

/-- Python truthiness (`bool(x)`): `None`, `0`, empty containers are falsy. -/
def Json.truthy : Json → Bool
  | .null => false
  | .bool b => b
  | .num x => x != 0
  | .str s => !s.isEmpty
  | .arr xs => !xs.isEmpty
  | .obj fs => !fs.isEmpty

/-- Whether the value is the Python object `None`. -/
def Json.isNull : Json → Bool
  | .null => true
  | _ => false

/-- First binding of a key in a dict, mirroring Python dict lookup. -/
def lookupField : List (String × Json) → String → Option Json
  | [], _ => none
  | (k, v) :: rest, key => if k == key then some v else lookupField rest key

/-- Python `==` between a loaded value and a `str`: only equal strings match;
comparing a non-string to a string is `False`, not an error. -/
def pyEqStr : Json → String → Bool
  | .str t, s => t == s
  | _, _ => false

/-- Python subscript with a string key, `x["k"]`: dict lookup raising
`KeyError` on a missing key, `TypeError` on non-dict receivers. -/
def pyItem (j : Json) (key : String) : Except PyErr Json :=
  match j with
  | .obj fields =>
    match lookupField fields key with
    | some v => .ok v
    | none => .error (.keyError ("\x27" ++ key ++ "\x27"))
  | .arr _ => .error (.typeError "list indices must be integers or slices, not str")
  | .str _ => .error (.typeError "string indices must be integers")
  | j => .error (.typeError ("\x27" ++ j.pyTypeName ++ "\x27 object is not subscriptable"))

/-- Python subscript with an integer index, `x[i]`. -/
def pyIndex (j : Json) (i : Nat) : Except PyErr Json :=
  match j with
  | .arr xs =>
    match xs.get? i with
    | some v => .ok v
    | none => .error (.indexError "list index out of range")
  | .str s =>
    match s.toList.get? i with
    | some c => .ok (.str (String.singleton c))
    | none => .error (.indexError "string index out of range")
  | .obj _ => .error (.keyError (toString i))
  | j => .error (.typeError ("\x27" ++ j.pyTypeName ++ "\x27 object is not subscriptable"))

/-- Python `key in x` for a string key: dict key test, list membership,
substring test on strings, `TypeError` on non-containers. -/
def pyContains (j : Json) (key : String) : Except PyErr Bool :=
  match j with
  | .obj fields => .ok (fields.any fun kv => kv.1 == key)
  | .arr xs => .ok (xs.any fun v => pyEqStr v key)
  | .str s => .ok ((s.splitOn key).length != 1)
  | j => .error (.typeError ("argument of type \x27" ++ j.pyTypeName ++ "\x27 is not iterable"))

/-- Python iteration, `for v in x`: lists yield elements, dicts their keys,
strings their characters; other values are not iterable. -/
def pyIter (j : Json) : Except PyErr (List Json) :=
  match j with
  | .arr xs => .ok xs
  | .obj fields => .ok (fields.map fun kv => Json.str kv.1)
  | .str s => .ok (s.toList.map fun c => Json.str (String.singleton c))
  | j => .error (.typeError ("\x27" ++ j.pyTypeName ++ "\x27 object is not iterable"))

/-- Python `x.get(key, default)`: defined only on dicts, `AttributeError`
elsewhere. -/
def pyGetDefault (j : Json) (key : String) (dflt : Json) : Except PyErr Json :=
  match j with
  | .obj fields => .ok ((lookupField fields key).getD dflt)
  | j => .error (.attributeError
      ("\x27" ++ j.pyTypeName ++ "\x27 object has no attribute \x27get\x27"))

/-- Python `x.get(key)` with the implicit `None` default. -/
def pyGet (j : Json) (key : String) : Except PyErr Json :=
  pyGetDefault j key Json.null

/-- Python `+` on loaded values: numbers add (booleans coerce to 0/1),
strings and lists concatenate, every other combination is a `TypeError`. -/
def pyAdd (a b : Json) : Except PyErr Json :=
  match a, b with
  | .num x, .num y => .ok (.num (x + y))
  | .num x, .bool v => .ok (.num (x + if v then 1 else 0))
  | .bool u, .num y => .ok (.num ((if u then 1 else 0) + y))
  | .bool u, .bool v => .ok (.num ((if u then 1 else 0) + (if v then 1 else 0)))
  | .str s, .str t => .ok (.str (s ++ t))
  | .arr xs, .arr ys => .ok (.arr (xs ++ ys))
  | a, b => .error (.typeError
      ("unsupported operand type(s) for +: \x27" ++ a.pyTypeName ++
       "\x27 and \x27" ++ b.pyTypeName ++ "\x27"))

/-- Python `x / 2` on a loaded value: true division of a number (booleans
coerce), `TypeError` on anything else. -/
def pyDivTwo (a : Json) : Except PyErr Json :=
  match a with
  | .num x => .ok (.num (x / 2))
  | .bool u => .ok (.num ((if u then 1 else 0) / 2))
  | a => .error (.typeError
      ("unsupported operand type(s) for /: \x27" ++ a.pyTypeName ++ "\x27 and \x27float\x27"))

/-- Python `int(x)` on a number: truncation toward zero. -/
def pyInt (q : ℚ) : ℤ :=
  if q < 0 then -⌊-q⌋ else ⌊q⌋

/-- The transcendental float functions used by `calculate_distance`,
kept abstract: every theorem below holds for any interpretation. -/
structure MathOps where
  radians : ℚ → ℚ
  sin : ℚ → ℚ
  cos : ℚ → ℚ
  asin : ℚ → ℚ
  sqrt : ℚ → ℚ

/-- A concrete interpretation of the float functions, used to instantiate
universally quantified theorems on concrete inputs. -/
def trivialOps : MathOps :=
  ⟨fun x => x, fun x => x, fun x => x, fun x => x, fun x => x⟩

/-- `math.radians(x)`: needs a real number, `TypeError` otherwise
(booleans coerce as everywhere in Python float math). -/
def pyRadians (ops : MathOps) (j : Json) : Except PyErr ℚ :=
  match j with
  | .num x => .ok (ops.radians x)
  | .bool v => .ok (ops.radians (if v then 1 else 0))
  | j => .error (.typeError ("must be real number, not " ++ j.pyTypeName))

/-- The outcome of `open(GEOJSON_FILE)` followed by `json.load`: the file is
absent, its content is not valid JSON, or it decodes to a value. -/
inductive ReadResult where
  | fileNotFound : ReadResult
  | jsonDecodeError : ReadResult
  | ok : Json → ReadResult

/-- `load_geojson_data` (src/app.py lines 18-28): returns the decoded value,
or `None` when the file is missing or its content is not valid JSON.  Note
that a file whose content is the JSON literal `null` decodes to `None` and is
therefore indistinguishable from a failed load. -/
def load_geojson_data : ReadResult → Json
  | .fileNotFound => Json.null
  | .jsonDecodeError => Json.null
  | .ok j => j

/-- The scan loop of `find_location_by_id` (lines 35-38):
`for feature in features: if feature.get("id") == location_id: return feature`.
Returns `None` when no feature matches. -/
def findFeature (features : List Json) (location_id : String) : Except PyErr Json :=
  match features with
  | [] => .ok Json.null
  | f :: rest =>
    (pyGet f "id").bind fun v =>
    if pyEqStr v location_id then .ok f else findFeature rest location_id

/-- `find_location_by_id` (lines 30-38): `None` when the data is falsy or has
no `features` key, otherwise the first feature whose `id` equals the query. -/
def find_location_by_id (data : Json) (location_id : String) : Except PyErr Json :=
  if !data.truthy then .ok Json.null
  else
    (pyContains data "features").bind fun hasFeatures =>
    if !hasFeatures then .ok Json.null
    else
      (pyItem data "features").bind fun feats =>
      (pyIter feats).bind fun xs =>
      findFeature xs location_id

/-- `generate_simple_route` (lines 40-50), faithfully including the slip on
line 45: the first midpoint component is `(source_coords[0] + dest_coords) / 2`,
adding a coordinate value to the whole destination coordinate list. -/
def generate_simple_route (source_coords dest_coords : Json) : Except PyErr Json :=
  (pyIndex source_coords 0).bind fun s0 =>
  (pyAdd s0 dest_coords).bind fun t0 =>
  (pyDivTwo t0).bind fun m0 =>
  (pyIndex source_coords 1).bind fun s1 =>
  (pyIndex dest_coords 1).bind fun d1 =>
  (pyAdd s1 d1).bind fun t1 =>
  (pyDivTwo t1).bind fun m1 =>
  .ok (Json.arr [source_coords, Json.arr [m0, m1], dest_coords])

/-- `calculate_distance` (lines 115-126), faithfully including the slip on
line 117: `lon2` is `math.radians(coord2)` applied to the whole coordinate
list, not to `coord2[0]`.  Tuple assignments evaluate left to right. -/
def calculate_distance (ops : MathOps) (coord1 coord2 : Json) : Except PyErr ℚ :=
  (pyIndex coord1 1).bind fun a1 =>
  (pyRadians ops a1).bind fun lat1 =>
  (pyIndex coord1 0).bind fun a0 =>
  (pyRadians ops a0).bind fun lon1 =>
  (pyIndex coord2 1).bind fun b1 =>
  (pyRadians ops b1).bind fun lat2 =>
  (pyRadians ops coord2).bind fun lon2 =>
  let dlat := lat2 - lat1
  let dlon := lon2 - lon1
  let a := ops.sin (dlat / 2) ^ 2 + ops.cos lat1 * ops.cos lat2 * ops.sin (dlon / 2) ^ 2
  let c := 2 * ops.asin (ops.sqrt a)
  let r : ℚ := 6371000
  .ok (r * c)

/-- Drops `pre` from the front of `l` when `pre` is a prefix of `l`. -/
def dropSepChars (l : List Char) (pre : List Char) : Option (List Char) :=
  match pre, l with
  | [], l => some l
  | _ :: _, [] => none
  | p :: ps, c :: cs => if c == p then dropSepChars cs ps else none

/-- Worker for `pySplit`: scans left to right, emitting a part whenever the
separator occurs, exactly like the CPython `str.split` with a non-empty
separator.  The fuel argument only licenses structural recursion; every step
consumes at least one character, so fuel equal to the length never runs out. -/
def pySplitGo (sep : List Char) : Nat → List Char → List Char → List String
  | _, acc, [] => [String.mk acc.reverse]
  | 0, acc, rest => [String.mk (acc.reverse ++ rest)]
  | fuel + 1, acc, c :: cs =>
    match dropSepChars (c :: cs) sep with
    | some rest => String.mk acc.reverse :: pySplitGo sep fuel [] rest
    | none => pySplitGo sep fuel (c :: acc) cs

/-- Python `s.split(sep)` for a non-empty separator: leftmost-first,
non-overlapping; splitting on `n` matches yields `n + 1` parts. -/
def pySplit (s : String) (sep : String) : List String :=
  pySplitGo sep.toList s.toList.length [] s.toList

/-- Python `s.strip()`: drop leading and trailing whitespace. -/
def pyStrip (s : String) : String :=
  String.mk (((s.toList.dropWhile Char.isWhitespace).reverse.dropWhile
    Char.isWhitespace).reverse)

/-- An HTTP reply: status code and JSON body. -/
structure Response where
  status : Nat
  body : Json

/-- Body `{"error": msg}` produced by `jsonify` on every error path. -/
def errBody (msg : String) : Json :=
  Json.obj [("error", Json.str msg)]

/-- `GET /` (lines 52-60): the static health descriptor. -/
def home : Response :=
  ⟨200, Json.obj [
    ("status", Json.str "AR Navigation API is running"),
    ("version", Json.str "1.0"),
    ("environment", Json.str "Azure Production"),
    ("app_name", Json.str "AR Campus Christ Navigation")]⟩

/-- `GET /christ_university.geojson` (lines 62-70): 500 when the load came
back `None`, otherwise the dataset itself with 200. -/
def get_geojson (file : ReadResult) : Response :=
  let data := load_geojson_data file
  if data.isNull then ⟨500, errBody "GeoJSON file not found or invalid"⟩
  else ⟨200, data⟩

/-- Lines 107-144 of `get_route`: coordinate extraction for the two found
features, route generation, distance, and assembly of the 200 payload. -/
def route_found (ops : MathOps) (source_location dest_location : Json)
    (source_id dest_id : String) : Except PyErr Response :=
  (pyItem source_location "geometry").bind fun sgeom =>
  (pyItem sgeom "coordinates").bind fun source_coords =>
  (pyItem dest_location "geometry").bind fun dgeom =>
  (pyItem dgeom "coordinates").bind fun dest_coords =>
  (generate_simple_route source_coords dest_coords).bind fun route_coordinates =>
  (calculate_distance ops source_coords dest_coords).bind fun distance =>
  (pyGetDefault source_location "properties" (Json.obj [])).bind fun sprops =>
  (pyGetDefault sprops "name" (Json.str source_id)).bind fun source_name =>
  (pyGetDefault dest_location "properties" (Json.obj [])).bind fun dprops =>
  (pyGetDefault dprops "name" (Json.str dest_id)).bind fun dest_name =>
  .ok ⟨200, Json.obj [
    ("type", Json.str "generated_route"),
    ("coordinates", route_coordinates),
    ("properties", Json.obj [
      ("distance", Json.str (toString (pyInt distance) ++ "m")),
      ("duration", Json.str (toString (pyInt (distance / 80)) ++ "min")),
      ("source_id", Json.str source_id),
      ("destination_id", Json.str dest_id),
      ("source_name", source_name),
      ("destination_name", dest_name)])]⟩

/-- Lines 91-105 of `get_route`: the non-empty, distinctness and existence
checks on the two stripped ids, short-circuiting into 400/404 replies.  Both
lookups run before either result is inspected, exactly as in the source. -/
def route_with_ids (ops : MathOps) (data : Json) (source_id dest_id : String) :
    Except PyErr Response :=
  if source_id == "" || dest_id == "" then
    .ok ⟨400, errBody "Source and destination IDs cannot be empty"⟩
  else if source_id == dest_id then
    .ok ⟨400, errBody "Source and destination cannot be the same"⟩
  else
    (find_location_by_id data source_id).bind fun source_location =>
    (find_location_by_id data dest_id).bind fun dest_location =>
    if !source_location.truthy then
      .ok ⟨404, errBody ("Source location \x27" ++ source_id ++ "\x27 not found")⟩
    else if !dest_location.truthy then
      .ok ⟨404, errBody ("Destination location \x27" ++ dest_id ++ "\x27 not found")⟩
    else
      route_found ops source_location dest_location source_id dest_id

/-- The body of the `try` block of `get_route` (lines 75-144).  The two
format checks of lines 82-87 collapse into one `match`: a string contains
`-to-` exactly when splitting on it yields at least two parts, so both the
missing-separator case and the wrong-part-count case land in the fallback
arm and return the same 400 response.  `load_geojson_data` is pure here, so
writing it twice is the single `data =` binding of line 78. -/
def get_route_body (ops : MathOps) (file : ReadResult) (path_name : String) :
    Except PyErr Response :=
  if (load_geojson_data file).isNull then
    .ok ⟨500, errBody "GeoJSON file not found or invalid"⟩
  else
    match pySplit path_name "-to-" with
    | [part0, part1] =>
      route_with_ids ops (load_geojson_data file) (pyStrip part0) (pyStrip part1)
    | _ => .ok ⟨400, errBody "Invalid route format. Use: source_id-to-destination_id"⟩

/-- `GET /route/<path_name>` (lines 72-148): the body runs inside `try`, and
any fault is converted by the `except` clause into a 500 reply. -/
def get_route (ops : MathOps) (file : ReadResult) (path_name : String) : Response :=
  match get_route_body ops file path_name with
  | .ok r => r
  | .error e => ⟨500, errBody ("Server error: " ++ e.message)⟩

/-- The example dataset of the spec: `loc1` named Gate at (77.000, 13.000)
and `loc2` named Library at (77.010, 13.010). -/
def demoDataset : Json :=
  Json.obj [
    ("type", Json.str "FeatureCollection"),
    ("features", Json.arr [
      Json.obj [
        ("id", Json.str "loc1"),
        ("properties", Json.obj [("name", Json.str "Gate")]),
        ("geometry", Json.obj [
          ("type", Json.str "Point"),
          ("coordinates", Json.arr [Json.num 77, Json.num 13])])],
      Json.obj [
        ("id", Json.str "loc2"),
        ("properties", Json.obj [("name", Json.str "Library")]),
        ("geometry", Json.obj [
          ("type", Json.str "Point"),
          ("coordinates", Json.arr [Json.num (7701 / 100), Json.num (1301 / 100)])])]])]

/-- A dataset where both ids resolve but the second feature carries a
corrupt (`null`) geometry, so coordinate extraction raises. -/
def brokenDataset : Json :=
  Json.obj [("features", Json.arr [
    Json.obj [("id", Json.str "a"),
      ("geometry", Json.obj [("coordinates", Json.arr [Json.num 1, Json.num 2])])],
    Json.obj [("id", Json.str "b"), ("geometry", Json.null)]])]

/-- The expected feature-collection shape in the words of the spec (section 6:
a feature collection keyed by feature id, with a `features` list): a dict
whose `features` key holds a list.  Stated only to compare the spec against
the code, which performs no such shape check at load time. -/
def specFeatureCollectionShape : Json → Bool
  | .obj fields =>
    match lookupField fields "features" with
    | some (.arr _) => true
    | _ => false
  | _ => false

/-! ## Helper lemmas -/

/-- Inverting a successful `Except.bind`: the first stage succeeded and the
continuation succeeded on its value. -/
theorem bind_ok_elim {α β : Type} {x : Except PyErr α} {f : α → Except PyErr β} {b : β}
    (h : x.bind f = .ok b) : ∃ a, x = .ok a ∧ f a = .ok b := by
  cases x with
  | error e => exact absurd h (by simp [Except.bind])
  | ok a => exact ⟨a, rfl, h⟩

/-- `generate_simple_route` raises on every pair of inputs.  The midpoint
expression of line 45 adds `source_coords[0]` to the whole destination list:
for the sum to survive the division by 2 both operands must be numeric, which
forces `dest_coords` itself to be a number, and then `dest_coords[1]` on
line 46 is not subscriptable.  Every other combination dies at the `+` or at
the `/`. -/
theorem generate_simple_route_fails (s d : Json) :
    ∃ e, generate_simple_route s d = Except.error e := by
  unfold generate_simple_route
  cases h0 : pyIndex s 0 with
  | error e => exact ⟨e, rfl⟩
  | ok s0 =>
    cases s0 <;> cases d <;>
      simp only [pyAdd, pyDivTwo, Except.bind] <;>
      first
      | exact ⟨_, rfl⟩
      | (cases h3 : pyIndex s 1 with
         | error e => exact ⟨e, rfl⟩
         | ok s1 => exact ⟨_, rfl⟩)

/-- The extraction-and-assembly stage never reaches its 200 payload, because
`generate_simple_route` always raises first. -/
theorem route_found_not_200 (ops : MathOps) (sl dl : Json) (sid did : String)
    (r : Response) (h : route_found ops sl dl sid did = Except.ok r) :
    r.status ≠ 200 := by
  unfold route_found at h
  obtain ⟨sgeom, -, h⟩ := bind_ok_elim h
  obtain ⟨source_coords, -, h⟩ := bind_ok_elim h
  obtain ⟨dgeom, -, h⟩ := bind_ok_elim h
  obtain ⟨dest_coords, -, h⟩ := bind_ok_elim h
  obtain ⟨route_coordinates, hg, h⟩ := bind_ok_elim h
  obtain ⟨e, he⟩ := generate_simple_route_fails source_coords dest_coords
  rw [he] at hg
  exact Except.noConfusion hg

/-- The validation-and-lookup stage only answers 400, 404, or whatever the
found stage answers, and the found stage never answers 200. -/
theorem route_with_ids_not_200 (ops : MathOps) (data : Json) (sid did : String)
    (r : Response) (h : route_with_ids ops data sid did = Except.ok r) :
    r.status ≠ 200 := by
  unfold route_with_ids at h
  split at h
  · cases h; simp
  · split at h
    · cases h; simp
    · obtain ⟨source_location, -, h⟩ := bind_ok_elim h
      obtain ⟨dest_location, -, h⟩ := bind_ok_elim h
      split at h
      · cases h; simp
      · split at h
        · cases h; simp
        · exact route_found_not_200 ops source_location dest_location sid did r h

/-! ## Claim theorems -/

/-- C9 (code bug): every non-raising pass through the route pipeline answers
a non-200 status — the successful RouteResult described by the claim, with
its rendered distance and duration, is never constructed, because route
generation always raises a TypeError first. -/
theorem route_never_succeeds (ops : MathOps) (file : ReadResult) (path : String)
    (r : Response) (h : get_route_body ops file path = Except.ok r) :
    r.status ≠ 200 := by
  unfold get_route_body at h
  split at h
  · cases h; simp
  · split at h
    · exact route_with_ids_not_200 ops _ _ _ r h
    · cases h; simp

/-- Witness for C9: on the same-id request the pipeline returns a 400 reply
without raising, and its status is not 200. -/
theorem route_never_succeeds_witness :
    Response.status ⟨400, errBody "Source and destination cannot be the same"⟩ ≠ 200 :=
  route_never_succeeds trivialOps (.ok demoDataset) "x-to-x" _ rfl

/-- C10: when the dataset load yields `None`, the route endpoint answers the
fixed 500 load-failure body for every path, before any request validation. -/
theorem load_failure_shadows_validation (ops : MathOps) (file : ReadResult) (path : String)
    (h : load_geojson_data file = Json.null) :
    get_route ops file path = ⟨500, errBody "GeoJSON file not found or invalid"⟩ := by
  unfold get_route get_route_body
  rw [h]
  rfl

/-- Witness for C10: a missing file plus a same-id path (which would be a 400
were validation reached) still answers the 500 load-failure body. -/
theorem load_failure_shadows_validation_witness :
    get_route trivialOps .fileNotFound "loc1-to-loc1" =
      ⟨500, errBody "GeoJSON file not found or invalid"⟩ :=
  load_failure_shadows_validation trivialOps .fileNotFound "loc1-to-loc1" rfl

/-- C4: whatever fault the pipeline raises, the route endpoint catches it and
answers 500 with body `Server error: <message>`; no fault escapes. -/
theorem unexpected_fault_returns_500 (ops : MathOps) (file : ReadResult) (path : String)
    (e : PyErr) (h : get_route_body ops file path = Except.error e) :
    get_route ops file path = ⟨500, errBody ("Server error: " ++ e.message)⟩ := by
  unfold get_route
  rw [h]

/-- Witness for C4: a corrupt stored geometry makes coordinate extraction
raise, and the endpoint converts the fault into the 500 reply. -/
theorem unexpected_fault_returns_500_witness :
    get_route trivialOps (.ok brokenDataset) "a-to-b" =
      ⟨500, errBody "Server error: \x27NoneType\x27 object is not subscriptable"⟩ :=
  unexpected_fault_returns_500 trivialOps (.ok brokenDataset) "a-to-b"
    (.typeError "\x27NoneType\x27 object is not subscriptable") rfl

/-- C5: when the path splits into exactly two parts with equal non-empty
stripped ids, the endpoint answers the 400 same-endpoint error for every
loaded dataset — in particular the id need not be present, since the check
runs before any lookup. -/
theorem same_endpoint_precedes_lookup (ops : MathOps) (data : Json) (path p0 p1 : String)
    (hdata : data.isNull = false)
    (hsplit : pySplit path "-to-" = [p0, p1])
    (hne : pyStrip p0 ≠ "")
    (heq : pyStrip p0 = pyStrip p1) :
    get_route ops (.ok data) path =
      ⟨400, errBody "Source and destination cannot be the same"⟩ := by
  unfold get_route get_route_body route_with_ids
  simp only [show load_geojson_data (ReadResult.ok data) = data from rfl, hdata, hsplit,
    Bool.false_eq_true, if_false, ← heq]
  simp [hne]

/-- Witness for C5: `ghost` is absent from the demo dataset, yet
`ghost-to-ghost` answers 400 same-endpoint, not a 404. -/
theorem same_endpoint_precedes_lookup_witness :
    get_route trivialOps (.ok demoDataset) "ghost-to-ghost" =
      ⟨400, errBody "Source and destination cannot be the same"⟩ ∧
    find_location_by_id demoDataset "ghost" = .ok Json.null :=
  ⟨same_endpoint_precedes_lookup trivialOps demoDataset "ghost-to-ghost" "ghost" "ghost"
    rfl rfl (by decide) rfl, rfl⟩

/-- C6: when splitting the path on `-to-` does not yield exactly two parts
(separator missing, or present more than once), the endpoint answers the
fixed 400 format error. -/
theorem bad_format_returns_400 (ops : MathOps) (data : Json) (path : String)
    (hdata : data.isNull = false)
    (hlen : (pySplit path "-to-").length ≠ 2) :
    get_route ops (.ok data) path =
      ⟨400, errBody "Invalid route format. Use: source_id-to-destination_id"⟩ := by
  unfold get_route get_route_body
  rw [show load_geojson_data (ReadResult.ok data) = data from rfl, hdata]
  rcases hsp : pySplit path "-to-" with _ | ⟨a, _ | ⟨b, _ | ⟨c, rest⟩⟩⟩
  · rfl
  · rfl
  · rw [hsp] at hlen; simp at hlen
  · rfl

/-- Witness for C6: a duplicated separator (three parts) and a missing
separator (one part) both answer the 400 format error. -/
theorem bad_format_returns_400_witness :
    get_route trivialOps (.ok demoDataset) "a-to-b-to-c" =
      ⟨400, errBody "Invalid route format. Use: source_id-to-destination_id"⟩ ∧
    get_route trivialOps (.ok demoDataset) "nonsense" =
      ⟨400, errBody "Invalid route format. Use: source_id-to-destination_id"⟩ :=
  ⟨bad_format_returns_400 trivialOps demoDataset "a-to-b-to-c" rfl (by decide),
   bad_format_returns_400 trivialOps demoDataset "nonsense" rfl (by decide)⟩

/-- C7: with a well-formed request whose ids both pass validation and are
both absent from the dataset, the endpoint answers the 404 naming the source
id — the source-missing error takes precedence. -/
theorem both_missing_source_404 (ops : MathOps) (data : Json) (path p0 p1 : String)
    (hdata : data.isNull = false)
    (hsplit : pySplit path "-to-" = [p0, p1])
    (hs : pyStrip p0 ≠ "") (hd : pyStrip p1 ≠ "") (hne : pyStrip p0 ≠ pyStrip p1)
    (hfind1 : find_location_by_id data (pyStrip p0) = .ok Json.null)
    (hfind2 : find_location_by_id data (pyStrip p1) = .ok Json.null) :
    get_route ops (.ok data) path =
      ⟨404, errBody ("Source location \x27" ++ pyStrip p0 ++ "\x27 not found")⟩ := by
  unfold get_route get_route_body route_with_ids
  simp only [show load_geojson_data (ReadResult.ok data) = data from rfl, hdata, hsplit,
    Bool.false_eq_true, if_false]
  simp [hs, hd, hne, hfind1, hfind2, Except.bind, Json.truthy]

/-- Witness for C7: neither `unknownA` nor `unknownB` is in the demo dataset
and the reply is the 404 that names `unknownA`. -/
theorem both_missing_source_404_witness :
    get_route trivialOps (.ok demoDataset) "unknownA-to-unknownB" =
      ⟨404, errBody "Source location \x27unknownA\x27 not found"⟩ :=
  both_missing_source_404 trivialOps demoDataset "unknownA-to-unknownB" "unknownA" "unknownB"
    rfl rfl (by decide) (by decide) (by decide) rfl rfl

/-- C1 (code bug): on the spec example dataset with both ids present and
distinct, the route endpoint does not answer a 200 three-point RouteResult:
line 45 adds a float to the destination coordinate list, the TypeError is
caught, and the reply is a 500. -/
theorem route_valid_ids_returns_500 :
    get_route trivialOps (.ok demoDataset) "loc1-to-loc2" =
      ⟨500, errBody
        "Server error: unsupported operand type(s) for +: \x27float\x27 and \x27list\x27"⟩ := rfl

/-- C2 (code bug): on the concrete coordinate pairs (77, 13) and
(77.01, 13.01), `generate_simple_route` does not return the waypoints
`[src, midpoint, dst]` — it raises a TypeError from `source_coords[0] +
dest_coords`. -/
theorem generate_simple_route_type_error :
    generate_simple_route (Json.arr [Json.num 77, Json.num 13])
      (Json.arr [Json.num (7701 / 100), Json.num (1301 / 100)]) =
      Except.error (.typeError
        "unsupported operand type(s) for +: \x27float\x27 and \x27list\x27") := rfl

/-- C3 (code bug): on finite degree coordinate pairs, `calculate_distance`
does not return the haversine distance — line 117 applies `math.radians` to
the whole second coordinate list and raises a TypeError, under every
interpretation of the float math functions. -/
theorem calculate_distance_type_error (ops : MathOps) :
    calculate_distance ops (Json.arr [Json.num 77, Json.num 13])
      (Json.arr [Json.num (7701 / 100), Json.num (1301 / 100)]) =
      Except.error (.typeError "must be real number, not list") := rfl

/-- C8 (counterexample): the string `"hello"` is valid JSON without the
feature-collection shape, yet the load succeeds and the dataset endpoint
serves it with 200 — refuting that the load fails exactly when the source is
absent or not parseable into the expected feature-collection shape. -/
theorem load_shape_not_validated :
    specFeatureCollectionShape (Json.str "hello") = false ∧
    load_geojson_data (.ok (Json.str "hello")) = Json.str "hello" ∧
    get_geojson (.ok (Json.str "hello")) = ⟨200, Json.str "hello"⟩ :=
  ⟨rfl, rfl, rfl⟩

/-- C8 (amended): the load yields the no-dataset outcome exactly when the
file is absent, the content is not valid JSON, or the content is the JSON
literal `null`; on that outcome the dataset endpoint answers the fixed 500
body, and any other decoded value — shape checked nowhere — is served with
200. -/
theorem load_failure_characterization (r : ReadResult) :
    (load_geojson_data r = Json.null ↔
      r = .fileNotFound ∨ r = .jsonDecodeError ∨ r = .ok Json.null) ∧
    (load_geojson_data r = Json.null →
      get_geojson r = ⟨500, errBody "GeoJSON file not found or invalid"⟩) ∧
    (∀ j, r = .ok j → j.isNull = false → get_geojson r = ⟨200, j⟩) := by
  refine ⟨?_, ?_, ?_⟩
  · cases r with
    | fileNotFound => simp [load_geojson_data]
    | jsonDecodeError => simp [load_geojson_data]
    | ok j => simp [load_geojson_data]
  · intro h
    unfold get_geojson
    rw [h]
    rfl
  · intro j hj hnull
    subst hj
    unfold get_geojson
    simp [load_geojson_data, hnull]

/-- Witness for the amended C8: the demo dataset is served with 200, and a
missing file answers the fixed 500 body. -/
theorem load_failure_characterization_witness :
    get_geojson (.ok demoDataset) = ⟨200, demoDataset⟩ ∧
    get_geojson .fileNotFound = ⟨500, errBody "GeoJSON file not found or invalid"⟩ :=
  ⟨(load_failure_characterization (.ok demoDataset)).2.2 demoDataset rfl rfl,
   (load_failure_characterization .fileNotFound).2.1 rfl⟩
